import Mathlib

/-!
Shallow embedding of the post synchronization controller of the `Profile`
component (src/unnamed/part_000, lines 176-355): the data model (`User`,
`Post`, the component state) and the three command handlers `getPosts`,
`handlePostSubmit` and `handleDeletePost`.

Network round trips are modelled by explicit result parameters: a fetch of
the post collection is an `Option (List Post)` (`none` = network/HTTP/parse
failure, i.e. the `catch` branch), the create request's response is an
`Option Post` (the server-assigned record on success), and the delete
request's outcome is a `Bool` (`false` = non-2xx, the `throw` branch).
`postedAt` is an ISO-8601 timestamp used only through
`new Date(...).getTime()`; it is modelled directly as the numeric epoch
value. The handlers close over the component's `user` state, which is
non-null whenever a handler can run (the view renders the post controls
only under `user ?`, and the `useEffect` routes away otherwise); they
therefore take a `User` argument.
-/

/-- `interface User` (part_000, lines 176-182). -/
structure User where
  id : String
  firstName : String
  lastName : String
  email : String
  password : String
deriving DecidableEq

/-- `interface Post` (part_000, lines 184-190); `postedAt` is the epoch
value of the ISO timestamp, i.e. `new Date(postedAt).getTime()`. -/
structure Post where
  id : String
  userId : String
  postedAt : Nat
  title : String
  text : String
deriving DecidableEq

/-- The draft buffer `newPost` state: `{ title: "", text: "" }`. -/
structure Draft where
  title : String
  text : String
deriving DecidableEq

/-- The component state owned by the controller: `posts`, `showModal`,
`newPost`, `isLoading`, `error`, `success` (part_000, lines 197-202). -/
structure ProfileState where
  posts : List Post
  showModal : Bool
  newPost : Draft
  isLoading : Bool
  error : Option String
  success : Option String
deriving DecidableEq

/-- The `useState` initial values: empty post list, modal hidden, empty
draft, not loading, no error, no success. -/
def initialProfileState : ProfileState :=
  { posts := [], showModal := false, newPost := { title := "", text := "" },
    isLoading := false, error := none, success := none }

/-- One insertion step of the ordering policy: place `p` into a list,
passing over the elements whose timestamp is strictly larger. Folding this
over the input realises the stable descending sort performed by
`.sort((a, b) => new Date(b.postedAt).getTime() - new Date(a.postedAt).getTime())`
(part_000, lines 241-244): `Array.prototype.sort` is stable, the comparator
orders by timestamp descending, and a stable sort under a total preorder is
yielded by insertion sort with strict passing. -/
def insertPostDesc (p : Post) : List Post → List Post
  | [] => [p]
  | q :: qs => if p.postedAt < q.postedAt then q :: insertPostDesc p qs else p :: q :: qs

/-- The ordering policy applied by `getPosts`: sort by `postedAt`
descending, stable on ties. -/
def orderPosts (l : List Post) : List Post :=
  l.foldr insertPostDesc []

/-- `getPosts` (part_000, lines 232-251): on a successful fetch, filter the
returned collection to the posts whose `userId` equals the given user's id,
sort them most-recent-first and store them in `posts`; on any failure set
`error` to "Failed to load posts.". No other state field is touched. -/
def getPosts (user : User) (fetchResult : Option (List Post)) (s : ProfileState) : ProfileState :=
  match fetchResult with
  | some data =>
      { s with posts := orderPosts (data.filter (fun p => p.userId == user.id)) }
  | none =>
      { s with error := some "Failed to load posts." }

/-- The request body built by `handlePostSubmit` (part_000, lines 285-290):
`{ userId: user.id, title, text, postedAt: now }`. -/
structure PostBody where
  userId : String
  title : String
  text : String
  postedAt : Nat
deriving DecidableEq

/-- `newPostData` as constructed in `handlePostSubmit`. -/
def newPostData (user : User) (now : Nat) (s : ProfileState) : PostBody :=
  { userId := user.id, title := s.newPost.title, text := s.newPost.text, postedAt := now }

/-- The validation test of `handlePostSubmit` (part_000, line 280):
`!newPost.title || !newPost.text` — JS string falsiness, i.e. the field is
the empty string; no trimming is applied. -/
def createValidationFails (s : ProfileState) : Bool :=
  s.newPost.title == "" || s.newPost.text == ""

/-- The state after the early `return` of a failed validation:
`setError("Both title and content are required.")`. -/
def createValidationError (s : ProfileState) : ProfileState :=
  { s with error := some "Both title and content are required." }

/-- `setIsLoading(true)` at the start of the network path of
`handlePostSubmit` (line 284), and of `handleDeletePost` (line 334). -/
def loadingStart (s : ProfileState) : ProfileState :=
  { s with isLoading := true }

/-- The `try` block of `handlePostSubmit` (lines 291-309): on a 2xx
response carrying the server-assigned record `addedPost`, prepend it to
`posts`, set `success` and clear `error`; on failure (the `catch`) only a
log happens, the state is untouched. -/
def applyCreateResult (createResult : Option Post) (s : ProfileState) : ProfileState :=
  match createResult with
  | some addedPost =>
      { s with posts := addedPost :: s.posts,
               success := some "Your post has been successfully added!",
               error := none }
  | none => s

/-- The `finally` block of `handlePostSubmit` after the re-list (lines
310-318): `setError(null)`, reset the draft buffer, `setIsLoading(false)`,
`setShowModal(false)`. -/
def createFinish (s : ProfileState) : ProfileState :=
  { s with error := none, newPost := { title := "", text := "" },
           isLoading := false, showModal := false }

/-- `handlePostSubmit` (part_000, lines 278-319), with the create
response and the re-list fetch result as explicit parameters (the request
body it sends is `newPostData`; the response to it is `createResult`). -/
def handlePostSubmit (user : User) (createResult : Option Post)
    (relistResult : Option (List Post)) (s : ProfileState) : ProfileState :=
  if createValidationFails s then
    createValidationError s
  else
    createFinish (getPosts user relistResult (applyCreateResult createResult (loadingStart s)))

/-- The states written during `handlePostSubmit`, in order, at the
granularity of its phases: validation short-circuit, or loading start /
create response applied / re-list / finally. -/
def handlePostSubmitTrace (user : User) (createResult : Option Post)
    (relistResult : Option (List Post)) (s : ProfileState) : List ProfileState :=
  if createValidationFails s then
    [createValidationError s]
  else
    [loadingStart s,
     applyCreateResult createResult (loadingStart s),
     getPosts user relistResult (applyCreateResult createResult (loadingStart s)),
     createFinish (getPosts user relistResult (applyCreateResult createResult (loadingStart s)))]

/-- The `try` block of `handleDeletePost` (lines 336-346): on a 2xx
response remove the post with the given id from `posts`, set `success`
and clear `error`; on failure (the `catch`, line 347) only a log happens. -/
def applyDeleteResult (postId : String) (deleteOk : Bool) (s : ProfileState) : ProfileState :=
  if deleteOk then
    { s with posts := s.posts.filter (fun post => post.id != postId),
             success := some "Your post has been successfully deleted!",
             error := none }
  else s

/-- The `finally` block of `handleDeletePost` (lines 349-354): re-list,
then `setIsLoading(false)`; note it does not touch `error` or the draft. -/
def deleteFinish (s : ProfileState) : ProfileState :=
  { s with isLoading := false }

/-- `handleDeletePost` (part_000, lines 333-355), with the delete
outcome and the re-list fetch result as explicit parameters. -/
def handleDeletePost (user : User) (postId : String) (deleteOk : Bool)
    (relistResult : Option (List Post)) (s : ProfileState) : ProfileState :=
  deleteFinish (getPosts user relistResult (applyDeleteResult postId deleteOk (loadingStart s)))

/-- The states written during `handleDeletePost`, in order, at the
granularity of its phases. -/
def handleDeletePostTrace (user : User) (postId : String) (deleteOk : Bool)
    (relistResult : Option (List Post)) (s : ProfileState) : List ProfileState :=
  [loadingStart s,
   applyDeleteResult postId deleteOk (loadingStart s),
   getPosts user relistResult (applyDeleteResult postId deleteOk (loadingStart s)),
   deleteFinish (getPosts user relistResult (applyDeleteResult postId deleteOk (loadingStart s)))]

/-! ### Properties of the ordering policy -/

theorem insertPostDesc_perm (p : Post) (l : List Post) :
    List.Perm (insertPostDesc p l) (p :: l) := by
  induction l with
  | nil => exact List.Perm.refl _
  | cons q qs ih =>
    simp only [insertPostDesc]
    split
    · exact (ih.cons q).trans (List.Perm.swap p q qs)
    · exact List.Perm.refl _

theorem orderPosts_perm (l : List Post) : List.Perm (orderPosts l) l := by
  induction l with
  | nil => exact List.Perm.refl _
  | cons p ps ih =>
    exact (insertPostDesc_perm p (orderPosts ps)).trans (ih.cons p)

theorem pairwise_insertPostDesc (p : Post) (l : List Post)
    (h : l.Pairwise (fun a b => b.postedAt ≤ a.postedAt)) :
    (insertPostDesc p l).Pairwise (fun a b => b.postedAt ≤ a.postedAt) := by
  induction l with
  | nil => simp [insertPostDesc]
  | cons q qs ih =>
    obtain ⟨h1, h2⟩ := List.pairwise_cons.mp h
    simp only [insertPostDesc]
    split
    · rename_i hlt
      refine List.pairwise_cons.mpr ⟨?_, ih h2⟩
      intro b hb
      rcases List.mem_cons.mp ((insertPostDesc_perm p qs).mem_iff.mp hb) with rfl | hb
      · exact Nat.le_of_lt hlt
      · exact h1 b hb
    · rename_i hge
      refine List.pairwise_cons.mpr ⟨?_, h⟩
      intro b hb
      rcases List.mem_cons.mp hb with rfl | hb
      · exact Nat.le_of_not_lt hge
      · exact Nat.le_trans (h1 b hb) (Nat.le_of_not_lt hge)

theorem orderPosts_pairwise (l : List Post) :
    (orderPosts l).Pairwise (fun a b => b.postedAt ≤ a.postedAt) := by
  induction l with
  | nil => exact List.Pairwise.nil
  | cons p ps ih => exact pairwise_insertPostDesc p (orderPosts ps) ih

theorem filter_insertPostDesc (t : Nat) (p : Post) (l : List Post) :
    (insertPostDesc p l).filter (fun q => q.postedAt == t) =
      if p.postedAt == t then p :: l.filter (fun q => q.postedAt == t)
      else l.filter (fun q => q.postedAt == t) := by
  induction l with
  | nil => simp [insertPostDesc, List.filter_cons]
  | cons q qs ih =>
    simp only [insertPostDesc]
    split
    · rename_i hlt
      rw [List.filter_cons, List.filter_cons, ih]
      by_cases hq : (q.postedAt == t) = true
      · have hq2 : q.postedAt = t := beq_iff_eq.mp hq
        have hp : ¬((p.postedAt == t) = true) := by
          intro hpt
          have hp2 : p.postedAt = t := beq_iff_eq.mp hpt
          omega
        rw [if_pos hq, if_neg hp, if_neg hp, if_pos hq]
      · rw [if_neg hq, if_neg hq]
    · rw [List.filter_cons]

theorem orderPosts_filter (t : Nat) (l : List Post) :
    (orderPosts l).filter (fun q => q.postedAt == t) =
      l.filter (fun q => q.postedAt == t) := by
  induction l with
  | nil => rfl
  | cons p ps ih =>
    show (insertPostDesc p (orderPosts ps)).filter _ = _
    rw [filter_insertPostDesc, List.filter_cons]
    by_cases hp : (p.postedAt == t) = true
    · simp only [if_pos hp, ih]
    · simp only [if_neg hp, ih]

theorem orderPosts_strict (l : List Post) (h : (l.map Post.postedAt).Nodup) :
    (orderPosts l).Pairwise (fun a b => b.postedAt < a.postedAt) := by
  have hp := orderPosts_pairwise l
  have hperm : List.Perm ((orderPosts l).map Post.postedAt) (l.map Post.postedAt) :=
    (orderPosts_perm l).map _
  have hnd : ((orderPosts l).map Post.postedAt).Nodup := hperm.nodup_iff.mpr h
  have hne : (orderPosts l).Pairwise (fun a b => a.postedAt ≠ b.postedAt) :=
    List.pairwise_map.mp hnd
  exact (hp.and hne).imp (fun hab => Nat.lt_of_le_of_ne hab.1 hab.2.symm)

/-- The states written during `getPosts`: the single `setPosts` of a
successful fetch, or the single `setError` of the `catch` branch. It never
writes `isLoading`. -/
def getPostsTrace (user : User) (fetchResult : Option (List Post)) (s : ProfileState) :
    List ProfileState :=
  [getPosts user fetchResult s]

/-! ### Concrete fixtures used by witnesses and counterexamples -/

def userU1 : User :=
  { id := "u1", firstName := "A", lastName := "B", email := "a@b.c", password := "pw" }

def postA : Post := { id := "p1", userId := "u1", postedAt := 100, title := "a", text := "ta" }

def postB : Post := { id := "p2", userId := "u2", postedAt := 200, title := "b", text := "tb" }

def postC : Post := { id := "p3", userId := "u1", postedAt := 300, title := "c", text := "tc" }

/-- A state whose draft title is a single space: non-empty for the
truthiness test of the code, empty after trimming. -/
def whitespaceDraftState : ProfileState :=
  { initialProfileState with newPost := { title := " ", text := "hi" } }

/-- A state with a non-empty, valid draft. -/
def filledDraftState : ProfileState :=
  { initialProfileState with newPost := { title := "t", text := "x" } }

/-- The server-assigned record for the draft of `filledDraftState`. -/
def createdPost : Post := { id := "p9", userId := "u1", postedAt := 400, title := "t", text := "x" }

/-! ### The claims -/

/-- Claim C1: every post that `getPosts` places in the controller's `posts`
has `userId` equal to the given user's id; no post of another user is ever
in the displayed list. -/
theorem getPosts_only_user_posts (user : User) (data : List Post) (s : ProfileState)
    (p : Post) (hp : p ∈ (getPosts user (some data) s).posts) :
    p.userId = user.id := by
  have hp2 : p ∈ orderPosts (data.filter (fun q => q.userId == user.id)) := hp
  have hmem : p ∈ data.filter (fun q => q.userId == user.id) :=
    (orderPosts_perm _).mem_iff.mp hp2
  exact beq_iff_eq.mp (List.mem_filter.mp hmem).2

/-- Witness for C1 on a store holding posts of two users. -/
theorem getPosts_only_user_posts_witness :
    postA ∈ (getPosts userU1 (some [postB, postA]) initialProfileState).posts ∧
      postA.userId = userU1.id :=
  ⟨by decide,
   getPosts_only_user_posts userU1 [postB, postA] initialProfileState postA (by decide)⟩

/-- Claim C2: the ordering policy returns the same posts (a permutation of
its input), sorted by `postedAt` descending — strictly descending when the
timestamps are distinct — and it is stable: for every timestamp, the posts
carrying it keep their relative order from the input. -/
theorem orderPosts_sorted_stable (l : List Post) :
    List.Perm (orderPosts l) l ∧
      (orderPosts l).Pairwise (fun a b => b.postedAt ≤ a.postedAt) ∧
      ((l.map Post.postedAt).Nodup →
        (orderPosts l).Pairwise (fun a b => b.postedAt < a.postedAt)) ∧
      (∀ t : Nat, (orderPosts l).filter (fun q => q.postedAt == t) =
        l.filter (fun q => q.postedAt == t)) :=
  ⟨orderPosts_perm l, orderPosts_pairwise l,
   fun h => orderPosts_strict l h, fun t => orderPosts_filter t l⟩

/-- Witness for C2 at a concrete three-post list with distinct timestamps. -/
theorem orderPosts_sorted_stable_witness :
    ([postA, postC, postB].map Post.postedAt).Nodup ∧
      (orderPosts [postA, postC, postB]).Pairwise (fun a b => b.postedAt < a.postedAt) :=
  ⟨by decide, (orderPosts_sorted_stable [postA, postC, postB]).2.2.1 (by decide)⟩

/-- Claim C3 counterexample: the draft title of `whitespaceDraftState` is a
single space — every character is whitespace, so it is empty after trimming
but non-empty as a string — yet the handler takes the network path: the
final `error` is `null` rather than the validation message (the `finally`
block cleared it), and the outcome depends on the network responses, so a
network call was made. -/
theorem createPost_no_trim_cex :
    whitespaceDraftState.newPost.title.toList.all Char.isWhitespace = true ∧
      whitespaceDraftState.newPost.title ≠ "" ∧
      (handlePostSubmit userU1 none (some []) whitespaceDraftState).error = none ∧
      handlePostSubmit userU1 (some postA) (some []) whitespaceDraftState ≠
        handlePostSubmit userU1 none none whitespaceDraftState := by
  refine ⟨?_, ?_, ?_, ?_⟩ <;> decide

/-- Claim C3 (amended): the validation tests literal emptiness, not
emptiness after trimming — for every draft whose title or text is the empty
string, the handler sets `error` to the validation message and returns
before the network call: the result does not depend on any network
response, `isLoading` is never set, and `posts` is unchanged. -/
theorem createPost_validation_shortcircuit (user : User) (cr : Option Post)
    (rl : Option (List Post)) (s : ProfileState)
    (h : s.newPost.title = "" ∨ s.newPost.text = "") :
    handlePostSubmit user cr rl s =
      { s with error := some "Both title and content are required." } := by
  have hv : createValidationFails s = true := by
    rcases h with h | h <;> simp [createValidationFails, h]
  simp [handlePostSubmit, hv, createValidationError]

/-- Witness for the amended C3 at the initial (empty-draft) state. -/
theorem createPost_validation_shortcircuit_witness :
    handlePostSubmit userU1 (some postA) (some [postB]) initialProfileState =
      { initialProfileState with error := some "Both title and content are required." } :=
  createPost_validation_shortcircuit userU1 (some postA) (some [postB]) initialProfileState
    (Or.inl rfl)

/-- Claim C4: when the create request succeeds with the server-assigned
record `p` (whose `userId` is the one sent in the request body) and the
subsequent re-list returns a collection containing `p`, the completed
operation leaves `p` present in `posts`, `isLoading` false and `success`
non-null. -/
theorem createPost_success_state (user : User) (now : Nat) (p : Post) (data : List Post)
    (s : ProfileState)
    (htitle : ¬ s.newPost.title = "") (htext : ¬ s.newPost.text = "")
    (huser : p.userId = (newPostData user now s).userId) (hmem : p ∈ data) :
    p ∈ (handlePostSubmit user (some p) (some data) s).posts ∧
      (handlePostSubmit user (some p) (some data) s).isLoading = false ∧
      (handlePostSubmit user (some p) (some data) s).success ≠ none := by
  have h1 : (s.newPost.title == "") = false := beq_eq_false_iff_ne.mpr htitle
  have h2 : (s.newPost.text == "") = false := beq_eq_false_iff_ne.mpr htext
  have hv : createValidationFails s = false := by
    simp [createValidationFails, h1, h2]
  have hres : handlePostSubmit user (some p) (some data) s =
      createFinish (getPosts user (some data) (applyCreateResult (some p) (loadingStart s))) := by
    simp [handlePostSubmit, hv]
  have hu2 : p.userId = user.id := huser
  rw [hres]
  refine ⟨?_, rfl, ?_⟩
  · show p ∈ orderPosts (data.filter (fun q => q.userId == user.id))
    exact (orderPosts_perm _).mem_iff.mpr (List.mem_filter.mpr ⟨hmem, beq_iff_eq.mpr hu2⟩)
  · show (some "Your post has been successfully added!" : Option String) ≠ none
    exact fun hc => Option.noConfusion hc

/-- Witness for C4: a successful create of `createdPost` from a valid
draft, with the re-list returning the store including it. -/
theorem createPost_success_state_witness :
    createdPost ∈
        (handlePostSubmit userU1 (some createdPost) (some [createdPost, postB])
          filledDraftState).posts ∧
      (handlePostSubmit userU1 (some createdPost) (some [createdPost, postB])
          filledDraftState).isLoading = false ∧
      (handlePostSubmit userU1 (some createdPost) (some [createdPost, postB])
          filledDraftState).success ≠ none :=
  createPost_success_state userU1 400 createdPost [createdPost, postB] filledDraftState
    (by decide) (by decide) (by decide) (by decide)

/-- Claim C5: past validation, whatever the create outcome, the handler
performs the re-list afterward (on a successful re-list fetch the final
`posts` is exactly its filtered, ordered result, identical to the one the
failure path yields), and always clears `isLoading`, the draft buffer and
`error`. -/
theorem createPost_always_relists_and_clears (user : User) (cr : Option Post)
    (data : List Post) (s : ProfileState)
    (htitle : ¬ s.newPost.title = "") (htext : ¬ s.newPost.text = "") :
    (∀ rl : Option (List Post),
      (handlePostSubmit user cr rl s).isLoading = false ∧
        (handlePostSubmit user cr rl s).newPost = { title := "", text := "" } ∧
        (handlePostSubmit user cr rl s).error = none) ∧
      (handlePostSubmit user cr (some data) s).posts =
        orderPosts (data.filter (fun q => q.userId == user.id)) ∧
      (handlePostSubmit user cr (some data) s).posts =
        (handlePostSubmit user none (some data) s).posts := by
  have h1 : (s.newPost.title == "") = false := beq_eq_false_iff_ne.mpr htitle
  have h2 : (s.newPost.text == "") = false := beq_eq_false_iff_ne.mpr htext
  have hv : createValidationFails s = false := by
    simp [createValidationFails, h1, h2]
  have hne : ∀ (cr2 : Option Post) (rl : Option (List Post)),
      handlePostSubmit user cr2 rl s =
        createFinish (getPosts user rl (applyCreateResult cr2 (loadingStart s))) := by
    intro cr2 rl
    simp [handlePostSubmit, hv]
  refine ⟨fun rl => ?_, ?_, ?_⟩
  · rw [hne cr rl]
    exact ⟨rfl, rfl, rfl⟩
  · rw [hne cr (some data)]
    rfl
  · rw [hne cr (some data), hne none (some data)]
    rfl

/-- Witness for C5 with a failing create request and a successful
re-list. -/
theorem createPost_always_relists_and_clears_witness :
    (handlePostSubmit userU1 none (some [postA]) filledDraftState).posts =
        orderPosts ([postA].filter (fun q => q.userId == userU1.id)) ∧
      (handlePostSubmit userU1 none (some [postA]) filledDraftState).isLoading = false :=
  ⟨(createPost_always_relists_and_clears userU1 none [postA] filledDraftState
      (by decide) (by decide)).2.1,
   ((createPost_always_relists_and_clears userU1 none [postA] filledDraftState
      (by decide) (by decide)).1 (some [postA])).1⟩

/-- Claim C6: a failing delete request changes neither `error` nor
`success` (the failure is only logged), the re-list still runs (on a
successful fetch the final `posts` is the filtered, ordered store
contents), and `isLoading` is false when the operation completes. -/
theorem deletePost_failure_state (user : User) (postId : String) (data : List Post)
    (s : ProfileState) :
    (handleDeletePost user postId false (some data) s).error = s.error ∧
      (handleDeletePost user postId false (some data) s).success = s.success ∧
      (handleDeletePost user postId false (some data) s).isLoading = false ∧
      (handleDeletePost user postId false (some data) s).posts =
        orderPosts (data.filter (fun q => q.userId == user.id)) :=
  ⟨rfl, rfl, rfl, rfl⟩

/-- Claim C7 counterexample: a failing list fetch from a state already
holding a post leaves `posts` non-empty — the code only sets `error` and
never empties the list. -/
theorem getPosts_failure_posts_cex :
    (getPosts userU1 none { initialProfileState with posts := [postA] }).error =
        some "Failed to load posts." ∧
      (getPosts userU1 none { initialProfileState with posts := [postA] }).posts ≠ [] :=
  ⟨rfl, by decide⟩

/-- Claim C7 (amended): a failing list fetch sets `error` to
"Failed to load posts." and leaves every other field — in particular
`posts` — unchanged; the post list is therefore empty only when it already
was, as on the initial load where `posts` starts as `[]`. -/
theorem getPosts_failure_sets_error (user : User) (s : ProfileState) :
    getPosts user none s = { s with error := some "Failed to load posts." } :=
  rfl

/-- Claim C8 counterexample: the list operation never sets `isLoading` —
started from the initial (not loading) state, every state it writes has
`isLoading = false`, on success and on failure alike; only create and
delete enter the loading state. -/
theorem list_no_loading_cex :
    (getPostsTrace userU1 (some [postA]) initialProfileState).map ProfileState.isLoading =
        [false] ∧
      (getPostsTrace userU1 none initialProfileState).map ProfileState.isLoading = [false] := by
  refine ⟨?_, ?_⟩ <;> decide

/-- Claim C8 (amended): create (once validation passes) and delete set
`isLoading` to true during execution and always finish with `isLoading`
false, whatever the network outcomes; the list operation never modifies
`isLoading`. -/
theorem loading_lifecycle (user : User) (cr : Option Post) (rl : Option (List Post))
    (postId : String) (ok : Bool) (s : ProfileState)
    (htitle : ¬ s.newPost.title = "") (htext : ¬ s.newPost.text = "") :
    ((loadingStart s).isLoading = true ∧
        loadingStart s ∈ handlePostSubmitTrace user cr rl s ∧
        (handlePostSubmit user cr rl s).isLoading = false) ∧
      (loadingStart s ∈ handleDeletePostTrace user postId ok rl s ∧
        (handleDeletePost user postId ok rl s).isLoading = false) ∧
      (getPosts user rl s).isLoading = s.isLoading := by
  have h1 : (s.newPost.title == "") = false := beq_eq_false_iff_ne.mpr htitle
  have h2 : (s.newPost.text == "") = false := beq_eq_false_iff_ne.mpr htext
  have hv : createValidationFails s = false := by
    simp [createValidationFails, h1, h2]
  refine ⟨⟨rfl, ?_, ?_⟩, ⟨?_, rfl⟩, ?_⟩
  · simp [handlePostSubmitTrace, hv]
  · simp only [handlePostSubmit, hv, Bool.false_eq_true, if_false]
    rfl
  · exact List.mem_cons_self _ _
  · cases rl <;> rfl

/-- Witness for the amended C8 at concrete inputs: a valid create whose
request fails, and a failing delete. -/
theorem loading_lifecycle_witness :
    (((loadingStart filledDraftState).isLoading = true ∧
        loadingStart filledDraftState ∈
          handlePostSubmitTrace userU1 none (some [postA]) filledDraftState ∧
        (handlePostSubmit userU1 none (some [postA]) filledDraftState).isLoading = false) ∧
      (loadingStart filledDraftState ∈
          handleDeletePostTrace userU1 "p1" false (some [postA]) filledDraftState ∧
        (handleDeletePost userU1 "p1" false (some [postA]) filledDraftState).isLoading = false) ∧
      (getPosts userU1 (some [postA]) filledDraftState).isLoading =
        filledDraftState.isLoading) :=
  loading_lifecycle userU1 none (some [postA]) "p1" false filledDraftState
    (by decide) (by decide)

/-- Claim C9 counterexample: a successful list fetch does not clear a
previously set error — the error survives unchanged. -/
theorem list_success_keeps_error_cex :
    (getPosts userU1 (some [postA])
        { initialProfileState with error := some "Failed to load posts." }).error =
      some "Failed to load posts." :=
  rfl

/-- Claim C9 (amended): a successful list leaves `error`, `success` and
`isLoading` unchanged (it only replaces `posts`); the clearing happens in
the mutating commands — create past validation always finishes with
`error = null`, and a successful delete whose re-list fetch succeeds
finishes with `error = null`. -/
theorem error_clearing_policy (user : User) (data : List Post) (s : ProfileState)
    (cr : Option Post) (postId : String)
    (htitle : ¬ s.newPost.title = "") (htext : ¬ s.newPost.text = "") :
    ((getPosts user (some data) s).error = s.error ∧
        (getPosts user (some data) s).success = s.success ∧
        (getPosts user (some data) s).isLoading = s.isLoading) ∧
      (∀ rl : Option (List Post), (handlePostSubmit user cr rl s).error = none) ∧
      (handleDeletePost user postId true (some data) s).error = none := by
  have h1 : (s.newPost.title == "") = false := beq_eq_false_iff_ne.mpr htitle
  have h2 : (s.newPost.text == "") = false := beq_eq_false_iff_ne.mpr htext
  have hv : createValidationFails s = false := by
    simp [createValidationFails, h1, h2]
  refine ⟨⟨rfl, rfl, rfl⟩, fun rl => ?_, rfl⟩
  simp only [handlePostSubmit, hv, Bool.false_eq_true, if_false]
  rfl

/-- Witness for the amended C9 at concrete inputs. -/
theorem error_clearing_policy_witness :
    (((getPosts userU1 (some [postA]) filledDraftState).error = filledDraftState.error ∧
        (getPosts userU1 (some [postA]) filledDraftState).success = filledDraftState.success ∧
        (getPosts userU1 (some [postA]) filledDraftState).isLoading =
          filledDraftState.isLoading) ∧
      (∀ rl : Option (List Post),
        (handlePostSubmit userU1 none rl filledDraftState).error = none) ∧
      (handleDeletePost userU1 "p1" true (some [postA]) filledDraftState).error = none) :=
  error_clearing_policy userU1 [postA] filledDraftState none "p1" (by decide) (by decide)

/-- Claim C10 counterexample: the success message does not persist
unchanged — after a create has set it, a subsequent successful delete
overwrites it with the delete message. -/
theorem success_message_overwritten_cex :
    (handleDeletePost userU1 "p1" true (some [])
          { initialProfileState with
              success := some "Your post has been successfully added!" }).success =
        some "Your post has been successfully deleted!" ∧
      (handleDeletePost userU1 "p1" true (some [])
          { initialProfileState with
              success := some "Your post has been successfully added!" }).success ≠
        some "Your post has been successfully added!" :=
  ⟨rfl, by decide⟩

/-- Claim C10 (amended): no operation ever resets `success` to null: if it
is non-null it stays non-null after any list, create or delete, whatever
the outcome — though a successful create or delete overwrites it with its
own message. -/
theorem success_never_cleared (user : User) (rl : Option (List Post)) (cr : Option Post)
    (postId : String) (ok : Bool) (s : ProfileState) (h : s.success ≠ none) :
    (getPosts user rl s).success ≠ none ∧
      (handlePostSubmit user cr rl s).success ≠ none ∧
      (handleDeletePost user postId ok rl s).success ≠ none := by
  refine ⟨?_, ?_, ?_⟩
  · cases rl <;> exact h
  · by_cases hv : createValidationFails s = true
    · simp only [handlePostSubmit, if_pos hv]
      exact h
    · simp only [handlePostSubmit, if_neg hv]
      cases cr with
      | some p => cases rl <;> exact fun hc => Option.noConfusion hc
      | none => cases rl <;> exact h
  · cases ok with
    | true => cases rl <;> exact fun hc => Option.noConfusion hc
    | false => cases rl <;> exact h

/-- Witness for the amended C10 starting from a state whose success
message was set by an earlier create. -/
theorem success_never_cleared_witness :
    ((getPosts userU1 (some [])
          { initialProfileState with
              success := some "Your post has been successfully added!" }).success ≠ none ∧
      (handlePostSubmit userU1 none (some [])
          { initialProfileState with
              success := some "Your post has been successfully added!" }).success ≠ none ∧
      (handleDeletePost userU1 "p1" false (some [])
          { initialProfileState with
              success := some "Your post has been successfully added!" }).success ≠ none) :=
  success_never_cleared userU1 (some []) none "p1" false
    { initialProfileState with success := some "Your post has been successfully added!" }
    (by decide)
